import Mathlib

/-!
Verification development for the telegram-video-bot repository.

The definitions below are a shallow embedding of `src/bot.py`.  External
collaborators (the yt-dlp extraction engine and the Telegram transport) are
modelled as oracle parameters: the raw format metadata the engine would
return is an explicit input, the success or failure of the long-running
download call and of the send call are explicit inputs, and every
user-visible or filesystem-visible effect of a handler is collected in an
explicit outcome record.
-/

namespace Bot

/-! ## Configuration constants (src/bot.py lines 20-22) -/

def MAX_FILE_SIZE : Nat := 1000 * 1024 * 1024

def CACHE_DURATION : Nat := 10 * 60

def FILE_DELETE_DELAY : Nat := 60

/-- Supported platforms allow-list (src/bot.py lines 28-34). -/
def SUPPORTED_PLATFORMS : List String :=
  ["youtube.com", "youtu.be",
   "instagram.com", "instagr.am",
   "tiktok.com",
   "twitter.com", "x.com",
   "reddit.com"]

/-! ## Substring containment, modelling the Python `needle in haystack` test -/

/-- Boolean test that the first character list is an initial segment of the
second, used to express Python substring containment. -/
def charsPrefixEq : List Char → List Char → Bool
  | [], _ => true
  | _ :: _, [] => false
  | a :: as, b :: bs => a == b && charsPrefixEq as bs

/-- Boolean substring containment on character lists: the Python expression
`needle in haystack` for strings. -/
def hasSubstring (needle : List Char) : List Char → Bool
  | [] => needle.isEmpty
  | c :: rest => charsPrefixEq needle (c :: rest) || hasSubstring needle rest

/-- Lower-casing of `url.lower()`, character by character. -/
def lowerChars (l : List Char) : List Char := l.map Char.toLower

/-- Check if the URL is from a supported platform (src/bot.py lines 45-47):
`any(platform in url.lower() for platform in SUPPORTED_PLATFORMS)`. -/
def is_supported_url (url : String) : Bool :=
  SUPPORTED_PLATFORMS.any fun p => hasSubstring p.toList (lowerChars url.toList)

/-! ## Raw extraction-engine data -/

/-- One raw format dictionary as returned by the extraction engine; every
field read with `fmt.get(...)` in src/bot.py is modelled, with `Option` for
possibly-missing keys. -/
structure RawFormat where
  format_id : String
  vcodec : Option String
  acodec : Option String
  filesize : Option Nat
  format_note : Option String
  height : Option Nat
  width : Option Nat
  ext : Option String
  abr : Option Nat
deriving DecidableEq, Repr

/-- The raw `info` dictionary returned by `ydl.extract_info` as read by
`get_video_info` (src/bot.py lines 53-64). -/
structure RawInfo where
  title : Option String
  uploader : Option String
  duration : Option Nat
  thumbnail : Option String
  formats : List RawFormat
deriving DecidableEq, Repr

/-! ## Normalized formats (src/bot.py lines 66-98) -/

structure VideoFormat where
  format_id : String
  format_note : String
  height : Nat
  width : Nat
  filesize : Nat
  ext : String
deriving DecidableEq, Repr

structure AudioFormat where
  format_id : String
  abr : Nat
  filesize : Nat
  ext : String
deriving DecidableEq, Repr

/-- Python truthiness-plus-ceiling test
`fmt.get('filesize') and fmt.get('filesize') <= MAX_FILE_SIZE`
(src/bot.py lines 72 and 82): a missing or zero filesize is falsy. -/
def filesizeOk (fs : Option Nat) : Bool :=
  match fs with
  | none => false
  | some n => decide (0 < n) && decide (n ≤ MAX_FILE_SIZE)

/-- The condition `fmt.get('vcodec') != 'none' and fmt.get('acodec') != 'none'`
(src/bot.py line 71); a missing key compares unequal to the string `none`. -/
def isVideoWithAudio (f : RawFormat) : Bool :=
  f.vcodec != some "none" && f.acodec != some "none"

/-- The condition `fmt.get('vcodec') == 'none' and fmt.get('acodec') != 'none'`
(src/bot.py line 81). -/
def isAudioOnly (f : RawFormat) : Bool :=
  f.vcodec == some "none" && f.acodec != some "none"

/-- Record built at src/bot.py lines 73-80. -/
def toVideoFormat (f : RawFormat) : VideoFormat :=
  { format_id := f.format_id
    format_note := f.format_note.getD ""
    height := f.height.getD 0
    width := f.width.getD 0
    filesize := f.filesize.getD 0
    ext := f.ext.getD "mp4" }

/-- Record built at src/bot.py lines 83-88. -/
def toAudioFormat (f : RawFormat) : AudioFormat :=
  { format_id := f.format_id
    abr := f.abr.getD 0
    filesize := f.filesize.getD 0
    ext := f.ext.getD "mp3" }

/-- Fuel-indexed core of `dedupByKey`; the fuel only drives structural
recursion and is always instantiated with the list length. -/
def dedupByKeyAux (key : α → String) : Nat → List α → List α
  | _, [] => []
  | 0, _ :: _ => []
  | fuel + 1, x :: xs =>
    ((xs.filter fun y => key y == key x).getLastD x)
      :: dedupByKeyAux key fuel (xs.filter fun y => key y != key x)

/-- Semantics of the Python dict comprehension
`list({v['format_id']: v for v in video_formats}.values())`
(src/bot.py lines 91 and 94): keys keep the order of their first
occurrence and each key keeps the value of its last occurrence. -/
def dedupByKey (key : α → String) (l : List α) : List α :=
  dedupByKeyAux key l.length l

/-- Insertion step of a stable descending sort by a numeric key. -/
def insertByKeyDesc (key : α → Nat) (x : α) : List α → List α
  | [] => [x]
  | y :: ys => if key x < key y then y :: insertByKeyDesc key x ys else x :: y :: ys

/-- Stable descending sort by a numeric key: the function computed by the
Python stable `list.sort(key=..., reverse=True)` calls at src/bot.py
lines 92 and 95. -/
def sortByKeyDesc (key : α → Nat) : List α → List α
  | [] => []
  | x :: xs => insertByKeyDesc key x (sortByKeyDesc key xs)

/-! ## get_video_info (src/bot.py lines 49-103) -/

/-- The `video_data` dictionary assembled by `get_video_info`. -/
structure VideoData where
  title : String
  uploader : String
  duration : Nat
  thumbnail : Option String
  formats : List RawFormat
  url : String
  timestamp : Nat
  video_formats : List VideoFormat
  audio_formats : List AudioFormat
deriving DecidableEq, Repr

/-- Fetch video information (src/bot.py lines 49-103), given the raw info
the extraction engine produced for the URL.  The surrounding
`try/except` returning `None` is modelled at the caller (`handle_url`)
by an `Option RawInfo` oracle. -/
def get_video_info (url : String) (now : Nat) (info : RawInfo) : VideoData :=
  let vfs0 := (info.formats.filter fun f =>
    isVideoWithAudio f && filesizeOk f.filesize).map toVideoFormat
  let afs0 := (info.formats.filter fun f =>
    isAudioOnly f && filesizeOk f.filesize).map toAudioFormat
  { title := info.title.getD "Unknown Title"
    uploader := info.uploader.getD "Unknown Uploader"
    duration := info.duration.getD 0
    thumbnail := info.thumbnail
    formats := info.formats
    url := url
    timestamp := now
    video_formats := sortByKeyDesc VideoFormat.height (dedupByKey VideoFormat.format_id vfs0)
    audio_formats := sortByKeyDesc AudioFormat.abr (dedupByKey AudioFormat.format_id afs0) }

/-! ## Menu building (src/bot.py lines 169-261) -/

/-- The JSON payload attached to an inline button as `callback_data`
(src/bot.py lines 203-208, 222-227, 232). -/
inductive CallbackData where
  | video (url format_id ext : String)
  | audio (url format_id ext : String)
  | cancel
deriving DecidableEq, Repr

structure Button where
  label : String
  callback_data : CallbackData
deriving DecidableEq, Repr

/-- Size label (src/bot.py lines 199 and 218); a zero size is falsy in
Python and yields `Unknown size`.  The one-decimal float rendering of the
megabyte count is abbreviated to an integer megabyte count; no claim
depends on label text. -/
def size_str (filesize : Nat) : String :=
  if filesize = 0 then "Unknown size" else toString (filesize / (1024 * 1024)) ++ "MB"

/-- Video-quality button (src/bot.py lines 200-210). -/
def videoButton (url : String) (fmt : VideoFormat) : Button :=
  { label := "🎬 Video: " ++ toString fmt.height ++ "p (" ++ size_str fmt.filesize ++ ")"
    callback_data := CallbackData.video url fmt.format_id fmt.ext }

/-- Video rows of the keyboard (src/bot.py lines 193-210): the first five
entries of the sorted candidate list. -/
def videoButtons (vd : VideoData) : List Button :=
  (vd.video_formats.take 5).map (videoButton vd.url)

/-- Audio row of the keyboard (src/bot.py lines 212-229): one button for the
best audio format when the candidate list is nonempty. -/
def audioButtons (vd : VideoData) : List Button :=
  match vd.audio_formats with
  | [] => []
  | best :: _ =>
    [{ label := "🎵 Audio (MP3) (" ++ size_str best.filesize ++ ")"
       callback_data := CallbackData.audio vd.url best.format_id "mp3" }]

/-- Cancel row of the keyboard (src/bot.py line 232). -/
def cancelButton : Button :=
  { label := "❌ Cancel", callback_data := CallbackData.cancel }

/-- The full inline keyboard of a preview message (src/bot.py lines 191-234);
row structure is flattened since each button occupies its own row. -/
def keyboard (vd : VideoData) : List Button :=
  videoButtons vd ++ audioButtons vd ++ [cancelButton]

/-- Zero-padded two-digit rendering used by the duration f-string. -/
def pad2 (n : Nat) : String :=
  if n < 10 then "0" ++ toString n else toString n

/-- Duration rendering (src/bot.py lines 174-180). -/
def duration_str (d : Nat) : String :=
  if d = 0 then "Unknown"
  else
    let hours := d / 3600
    let rem := d % 3600
    let minutes := rem / 60
    let seconds := rem % 60
    if hours ≠ 0 then pad2 hours ++ ":" ++ pad2 minutes ++ ":" ++ pad2 seconds
    else pad2 minutes ++ ":" ++ pad2 seconds

/-- Observable content of one preview message sent by `send_preview`
(src/bot.py lines 169-261): destination chat, caption and keyboard. -/
structure SentPreview where
  chat : Nat
  caption : String
  buttons : List Button
deriving DecidableEq, Repr

/-- Send a preview message with video details and download options
(src/bot.py lines 169-261).  The thumbnail fallback only affects which
transport call carries the message, not its content. -/
def send_preview (chat : Nat) (vd : VideoData) : SentPreview :=
  { chat := chat
    caption :=
      "📹 *" ++ vd.title ++ "*\n\n" ++
      "👤 *Uploader:* " ++ vd.uploader ++ "\n" ++
      "⏱️ *Duration:* " ++ duration_str vd.duration ++ "\n\n" ++
      "Please select a download option:"
    buttons := keyboard vd }

/-! ## handle_url (src/bot.py lines 130-167) -/

/-- Observable effects of one `handle_url` invocation. -/
structure UrlOutcome where
  replies : List String
  edits : List String
  deletes : Nat
  extractionCalls : Nat
  menu : Option (List Button)
deriving DecidableEq, Repr

/-- Lookup in the module-level `video_cache` dict, keyed by `hash(url)`. -/
def lookupCache (key : Nat) : List (Nat × VideoData) → Option VideoData
  | [] => none
  | (k, v) :: rest => if k == key then some v else lookupCache key rest

/-- Dict assignment `video_cache[cache_key] = video_data`: overwrite an
existing key in place, otherwise append. -/
def insertCache (key : Nat) (v : VideoData) (c : List (Nat × VideoData)) :
    List (Nat × VideoData) :=
  if c.any fun kv => kv.1 == key then
    c.map fun kv => if kv.1 == key then (key, v) else kv
  else c ++ [(key, v)]

/-- Text of the unsupported-URL rejection (src/bot.py lines 135-138). -/
def unsupportedReply : String :=
  "❌ This URL is not supported or invalid.\n\nPlease send a link from YouTube, Instagram, TikTok, Twitter/X, or Reddit."

/-- Handle URL messages from users (src/bot.py lines 130-167).  `hashUrl`
stands for the process-stable Python `hash`, `engine` for the outcome of the
external `extract_info` call (`none` models the exception path in which
`get_video_info` returns `None`).  Returns the observable effects and the
updated `video_cache`. -/
def handle_url (hashUrl : String → Nat) (now : Nat) (cache : List (Nat × VideoData))
    (url : String) (engine : Option RawInfo) :
    UrlOutcome × List (Nat × VideoData) :=
  if !is_supported_url url then
    ({ replies := [unsupportedReply], edits := [], deletes := 0,
       extractionCalls := 0, menu := none }, cache)
  else
    let key := hashUrl url
    let cached : Option VideoData :=
      match lookupCache key cache with
      | some vd0 => if now - vd0.timestamp < CACHE_DURATION then some vd0 else none
      | none => none
    match cached with
    | some vd0 =>
      ({ replies := [], edits := [], deletes := 0,
         extractionCalls := 0, menu := some (keyboard vd0) }, cache)
    | none =>
      match engine with
      | none =>
        ({ replies := ["⏳ Processing your link..."],
           edits := ["❌ Failed to fetch video information. Please try again later."],
           deletes := 0, extractionCalls := 1, menu := none }, cache)
      | some info =>
        let vd := get_video_info url now info
        ({ replies := ["⏳ Processing your link..."], edits := [], deletes := 1,
           extractionCalls := 1, menu := some (keyboard vd) },
         insertCache key vd cache)

/-! ## handle_callback_query (src/bot.py lines 263-326) -/

/-- Result of a successful `download_media` call: the produced file's path
and its on-disk size in bytes. -/
structure Artifact where
  path : String
  size : Nat
deriving DecidableEq, Repr

/-- Observable effects of one `handle_callback_query` invocation. -/
structure CbOutcome where
  edits : List String
  downloadCalls : Nat
  sendVideoCalls : List String
  sendAudioCalls : List String
  scheduledDeletions : List (Nat × String)
  immediateRemovals : List String
deriving DecidableEq, Repr

/-- Download branch of `handle_callback_query` (src/bot.py lines 276-322):
edit to `Preparing`, call `download_media`, and on a produced artifact either
send it, edit to `completed` and schedule a deferred deletion, or — when the
transport raises — edit to the generic too-large message and remove the file
immediately.  `downloadResult` is `none` when `download_media` returned
`None`; `sendOk` is false when the try-block raises `TelegramError`. -/
def dispatchDownload (isVideo : Bool) (downloadResult : Option Artifact)
    (sendOk : Bool) : CbOutcome :=
  match downloadResult with
  | none =>
    { edits := ["⏳ Preparing your download...",
                "❌ Failed to download the media. Please try again."]
      downloadCalls := 1, sendVideoCalls := [], sendAudioCalls := []
      scheduledDeletions := [], immediateRemovals := [] }
  | some art =>
    if sendOk then
      { edits := ["⏳ Preparing your download...", "✅ Download completed!"]
        downloadCalls := 1
        sendVideoCalls := if isVideo then [art.path] else []
        sendAudioCalls := if isVideo then [] else [art.path]
        scheduledDeletions := [(FILE_DELETE_DELAY, art.path)]
        immediateRemovals := [] }
    else
      { edits := ["⏳ Preparing your download...",
                  "❌ Failed to send the file. It might be too large for Telegram."]
        downloadCalls := 1
        sendVideoCalls := if isVideo then [art.path] else []
        sendAudioCalls := if isVideo then [] else [art.path]
        scheduledDeletions := []
        immediateRemovals := [art.path] }

/-- Handle callback queries from inline keyboards (src/bot.py lines 263-326).
The handler reads and writes no module-level state; the `video_cache` is
threaded through unchanged to make that explicit. -/
def handle_callback_query (cache : List (Nat × VideoData)) (data : CallbackData)
    (downloadResult : Option Artifact) (sendOk : Bool) :
    CbOutcome × List (Nat × VideoData) :=
  match data with
  | CallbackData.cancel =>
    ({ edits := ["❌ Download cancelled."], downloadCalls := 0
       sendVideoCalls := [], sendAudioCalls := []
       scheduledDeletions := [], immediateRemovals := [] }, cache)
  | CallbackData.video _ _ _ => (dispatchDownload true downloadResult sendOk, cache)
  | CallbackData.audio _ _ _ => (dispatchDownload false downloadResult sendOk, cache)

/-- Either constructor of a download action. -/
def mkDownloadAction (isVideo : Bool) (url fid ext : String) : CallbackData :=
  if isVideo then CallbackData.video url fid ext else CallbackData.audio url fid ext

/-- Two successive button presses carrying the same callback payload, the
second processed against whatever state the first left behind. -/
def handle_two_presses (cache : List (Nat × VideoData)) (data : CallbackData)
    (dl1 dl2 : Option Artifact) (s1 s2 : Bool) :
    (CbOutcome × CbOutcome) × List (Nat × VideoData) :=
  let r1 := handle_callback_query cache data dl1 s1
  let r2 := handle_callback_query r1.2 data dl2 s2
  ((r1.1, r2.1), r2.2)

/-! ## Button classifiers used by the claims -/

def buttonFormatIds (bs : List Button) : List String :=
  bs.filterMap fun b =>
    match b.callback_data with
    | CallbackData.video _ fid _ => some fid
    | CallbackData.audio _ fid _ => some fid
    | CallbackData.cancel => none

def isAudioButton (b : Button) : Bool :=
  match b.callback_data with
  | CallbackData.audio _ _ _ => true
  | _ => false

def isCancelButton (b : Button) : Bool :=
  match b.callback_data with
  | CallbackData.cancel => true
  | _ => false

/-! ## Concrete example inputs used by counterexamples and witnesses -/

/-- Raw 720p video-with-audio format. -/
def exRawVideo : RawFormat :=
  { format_id := "22", vcodec := some "avc1", acodec := some "mp4a"
    filesize := some 1000000, format_note := some "720p", height := some 720
    width := some 1280, ext := some "mp4", abr := none }

/-- Raw audio-only format. -/
def exRawAudio : RawFormat :=
  { format_id := "140", vcodec := some "none", acodec := some "mp4a"
    filesize := some 50000, format_note := none, height := none
    width := none, ext := some "m4a", abr := some 128 }

/-- Raw info with one video and one audio format. -/
def exInfo : RawInfo :=
  { title := some "T", uploader := some "U", duration := some 10
    thumbnail := none, formats := [exRawVideo, exRawAudio] }

/-- Normalized video data for the example info. -/
def exVD : VideoData := get_video_info "https://youtube.com/watch?v=a" 0 exInfo

end Bot

namespace Bot

/-! ## Helper lemmas about the dict-comprehension deduplication -/

lemma getLastD_eq_or_mem (l : List α) : ∀ d : α, l.getLastD d = d ∨ l.getLastD d ∈ l := by
  induction l with
  | nil => intro d; exact Or.inl rfl
  | cons a l ih =>
    intro d
    rw [List.getLastD_cons]
    rcases ih a with h | h
    · exact Or.inr (by rw [h]; exact List.mem_cons_self a l)
    · exact Or.inr (List.mem_cons_of_mem a h)

lemma key_getLastD_filter (key : α → String) (x : α) (xs : List α) :
    key ((xs.filter fun y => key y == key x).getLastD x) = key x := by
  rcases getLastD_eq_or_mem (xs.filter fun y => key y == key x) x with h | h
  · rw [h]
  · exact eq_of_beq (List.mem_filter.mp h).2

lemma mem_dedupByKeyAux (key : α → String) :
    ∀ (fuel : Nat) (l : List α) (x : α), x ∈ dedupByKeyAux key fuel l → x ∈ l := by
  intro fuel
  induction fuel with
  | zero => intro l x hx; cases l <;> simp [dedupByKeyAux] at hx
  | succ n ih =>
    intro l x hx
    cases l with
    | nil => simp [dedupByKeyAux] at hx
    | cons a as =>
      rcases List.mem_cons.mp hx with h | h
      · rcases getLastD_eq_or_mem (as.filter fun y => key y == key a) a with he | hm
        · rw [h, he]; exact List.mem_cons_self a as
        · rw [h]
          exact List.mem_cons_of_mem a (List.mem_of_mem_filter hm)
      · exact List.mem_cons_of_mem a (List.mem_of_mem_filter (ih _ x h))

lemma nodup_keys_dedupByKeyAux (key : α → String) :
    ∀ (fuel : Nat) (l : List α), ((dedupByKeyAux key fuel l).map key).Nodup := by
  intro fuel
  induction fuel with
  | zero => intro l; cases l <;> simp [dedupByKeyAux]
  | succ n ih =>
    intro l
    cases l with
    | nil => simp [dedupByKeyAux]
    | cons a as =>
      simp only [dedupByKeyAux, List.map_cons, List.nodup_cons]
      refine ⟨?_, ih _⟩
      intro hmem
      rw [key_getLastD_filter key a as] at hmem
      rcases List.mem_map.mp hmem with ⟨y, hy, hky⟩
      have hy' := mem_dedupByKeyAux key n _ y hy
      have hne := (List.mem_filter.mp hy').2
      rw [bne_iff_ne] at hne
      exact hne hky

lemma mem_dedupByKey (key : α → String) (l : List α) (x : α)
    (h : x ∈ dedupByKey key l) : x ∈ l :=
  mem_dedupByKeyAux key l.length l x h

lemma nodup_keys_dedupByKey (key : α → String) (l : List α) :
    ((dedupByKey key l).map key).Nodup :=
  nodup_keys_dedupByKeyAux key l.length l

/-! ## Helper lemmas about the stable descending sort -/

lemma insertByKeyDesc_perm (key : α → Nat) (x : α) (l : List α) :
    List.Perm (insertByKeyDesc key x l) (x :: l) := by
  induction l with
  | nil => exact List.Perm.refl _
  | cons y ys ih =>
    by_cases h : key x < key y
    · simp only [insertByKeyDesc, if_pos h]
      exact (ih.cons y).trans (List.Perm.swap x y ys)
    · simp only [insertByKeyDesc, if_neg h]
      exact List.Perm.refl _

lemma sortByKeyDesc_perm (key : α → Nat) (l : List α) :
    List.Perm (sortByKeyDesc key l) l := by
  induction l with
  | nil => exact List.Perm.refl _
  | cons x xs ih =>
    exact (insertByKeyDesc_perm key x _).trans (ih.cons x)

lemma pairwise_insertByKeyDesc (key : α → Nat) (x : α) (l : List α)
    (h : l.Pairwise fun a b => key b ≤ key a) :
    (insertByKeyDesc key x l).Pairwise fun a b => key b ≤ key a := by
  induction l with
  | nil => simp [insertByKeyDesc]
  | cons y ys ih =>
    rw [List.pairwise_cons] at h
    by_cases hlt : key x < key y
    · simp only [insertByKeyDesc, if_pos hlt]
      rw [List.pairwise_cons]
      refine ⟨?_, ih h.2⟩
      intro z hz
      rcases List.mem_cons.mp ((insertByKeyDesc_perm key x ys).mem_iff.mp hz) with rfl | hzys
      · exact Nat.le_of_lt hlt
      · exact h.1 z hzys
    · simp only [insertByKeyDesc, if_neg hlt]
      rw [List.pairwise_cons]
      refine ⟨?_, List.pairwise_cons.mpr h⟩
      intro z hz
      rcases List.mem_cons.mp hz with rfl | hzys
      · exact Nat.le_of_not_lt hlt
      · exact le_trans (h.1 z hzys) (Nat.le_of_not_lt hlt)

lemma pairwise_sortByKeyDesc (key : α → Nat) (l : List α) :
    (sortByKeyDesc key l).Pairwise fun a b => key b ≤ key a := by
  induction l with
  | nil => simp [sortByKeyDesc]
  | cons x xs ih => exact pairwise_insertByKeyDesc key x _ ih

/-! ## Characterizations of the normalized format lists -/

lemma video_formats_def (url : String) (now : Nat) (info : RawInfo) :
    (get_video_info url now info).video_formats
      = sortByKeyDesc VideoFormat.height (dedupByKey VideoFormat.format_id
          ((info.formats.filter fun f =>
            isVideoWithAudio f && filesizeOk f.filesize).map toVideoFormat)) := rfl

lemma audio_formats_def (url : String) (now : Nat) (info : RawInfo) :
    (get_video_info url now info).audio_formats
      = sortByKeyDesc AudioFormat.abr (dedupByKey AudioFormat.format_id
          ((info.formats.filter fun f =>
            isAudioOnly f && filesizeOk f.filesize).map toAudioFormat)) := rfl

lemma mem_video_formats {url : String} {now : Nat} {info : RawInfo} {v : VideoFormat}
    (h : v ∈ (get_video_info url now info).video_formats) :
    ∃ f ∈ info.formats,
      (isVideoWithAudio f && filesizeOk f.filesize) = true ∧ v = toVideoFormat f := by
  rw [video_formats_def] at h
  have h1 := (sortByKeyDesc_perm VideoFormat.height _).mem_iff.mp h
  have h2 := mem_dedupByKey _ _ _ h1
  rcases List.mem_map.mp h2 with ⟨f, hf, rfl⟩
  have hf' := List.mem_filter.mp hf
  exact ⟨f, hf'.1, hf'.2, rfl⟩

lemma mem_audio_formats {url : String} {now : Nat} {info : RawInfo} {a : AudioFormat}
    (h : a ∈ (get_video_info url now info).audio_formats) :
    ∃ f ∈ info.formats,
      (isAudioOnly f && filesizeOk f.filesize) = true ∧ a = toAudioFormat f := by
  rw [audio_formats_def] at h
  have h1 := (sortByKeyDesc_perm AudioFormat.abr _).mem_iff.mp h
  have h2 := mem_dedupByKey _ _ _ h1
  rcases List.mem_map.mp h2 with ⟨f, hf, rfl⟩
  have hf' := List.mem_filter.mp hf
  exact ⟨f, hf'.1, hf'.2, rfl⟩

end Bot

namespace Bot

/-! ## Button-list computations -/

lemma buttonFormatIds_append (l1 l2 : List Button) :
    buttonFormatIds (l1 ++ l2) = buttonFormatIds l1 ++ buttonFormatIds l2 :=
  List.filterMap_append l1 l2 _

lemma buttonFormatIds_map_videoButton (url : String) (l : List VideoFormat) :
    buttonFormatIds (l.map (videoButton url)) = l.map VideoFormat.format_id := by
  induction l with
  | nil => rfl
  | cons f fs ih =>
    simp only [List.map_cons]
    rw [show buttonFormatIds (videoButton url f :: fs.map (videoButton url))
          = f.format_id :: buttonFormatIds (fs.map (videoButton url)) from rfl, ih]

lemma buttonFormatIds_keyboard (vd : VideoData) :
    buttonFormatIds (keyboard vd)
      = (vd.video_formats.take 5).map VideoFormat.format_id
        ++ (vd.audio_formats.take 1).map AudioFormat.format_id := by
  have hvb : buttonFormatIds (videoButtons vd)
      = (vd.video_formats.take 5).map VideoFormat.format_id :=
    buttonFormatIds_map_videoButton vd.url _
  have hc : buttonFormatIds [cancelButton] = ([] : List String) := rfl
  cases ha : vd.audio_formats with
  | nil =>
    have haud : buttonFormatIds (audioButtons vd) = ([] : List String) := by
      simp only [audioButtons, ha]
      rfl
    simp [keyboard, buttonFormatIds_append, hvb, haud, hc, ha]
  | cons a rest =>
    have haud : buttonFormatIds (audioButtons vd) = [a.format_id] := by
      simp only [audioButtons, ha]
      rfl
    simp [keyboard, buttonFormatIds_append, hvb, haud, hc, ha]

lemma countP_map_videoButton (url : String) (l : List VideoFormat) (p : Button → Bool)
    (hp : ∀ f, p (videoButton url f) = false) :
    (l.map (videoButton url)).countP p = 0 := by
  apply List.countP_eq_zero.mpr
  intro b hb
  rcases List.mem_map.mp hb with ⟨f, _, rfl⟩
  simp [hp]

/-! ## Claim C7 -/

/-- Claim C7: for every input format list (satisfying the extraction engine's
documented invariant that format identifiers are unique within one URL's
format set), the rendered menu never contains two buttons bound to the same
format identifier. -/
theorem C7_no_duplicate_ids (url : String) (now : Nat) (info : RawInfo)
    (h : (info.formats.map RawFormat.format_id).Nodup) :
    (buttonFormatIds (keyboard (get_video_info url now info))).Nodup := by
  rw [buttonFormatIds_keyboard]
  have hvfids : (((get_video_info url now info).video_formats).map VideoFormat.format_id).Nodup := by
    rw [video_formats_def]
    exact (((sortByKeyDesc_perm VideoFormat.height _).map VideoFormat.format_id).symm).nodup
      (nodup_keys_dedupByKey _ _)
  have hA : ((((get_video_info url now info).video_formats).take 5).map VideoFormat.format_id).Nodup := by
    rw [List.map_take]
    exact (List.take_sublist 5 _).nodup hvfids
  have hB : ((((get_video_info url now info).audio_formats).take 1).map AudioFormat.format_id).Nodup := by
    cases ha : (get_video_info url now info).audio_formats with
    | nil => simp [ha]
    | cons a rest => simp [ha]
  refine List.Nodup.append hA hB ?_
  intro s hsA hsB
  rcases List.mem_map.mp hsA with ⟨v, hv5, hvfid⟩
  have hv : v ∈ (get_video_info url now info).video_formats :=
    (List.take_sublist 5 _).subset hv5
  rcases mem_video_formats hv with ⟨f1, hf1mem, hf1cond, hveq⟩
  rcases List.mem_map.mp hsB with ⟨a, ha1, hafid⟩
  have haud : a ∈ (get_video_info url now info).audio_formats :=
    (List.take_sublist 1 _).subset ha1
  rcases mem_audio_formats haud with ⟨f2, hf2mem, hf2cond, haeq⟩
  have hids : f1.format_id = f2.format_id := by
    have h1 : v.format_id = f1.format_id := by rw [hveq]; rfl
    have h2 : a.format_id = f2.format_id := by rw [haeq]; rfl
    rw [← h1, ← h2, hvfid, hafid]
  have hf12 : f1 = f2 := List.inj_on_of_nodup_map h hf1mem hf2mem hids
  rw [Bool.and_eq_true] at hf1cond hf2cond
  have h1 : isVideoWithAudio f1 = true := hf1cond.1
  have h2 : isAudioOnly f2 = true := hf2cond.1
  simp only [isVideoWithAudio, Bool.and_eq_true, bne_iff_ne, ne_eq] at h1
  simp only [isAudioOnly, Bool.and_eq_true, bne_iff_ne, ne_eq, beq_iff_eq] at h2
  exact h1.1 (by rw [hf12]; exact h2.1)

/-- Claim C7, witness: the example input has pairwise-distinct raw format
identifiers and its menu's button format identifiers are pairwise distinct. -/
theorem C7_witness :
    (exInfo.formats.map RawFormat.format_id).Nodup ∧
    (buttonFormatIds (keyboard (get_video_info "https://youtube.com/watch?v=a" 0 exInfo))).Nodup :=
  ⟨by decide, C7_no_duplicate_ids "https://youtube.com/watch?v=a" 0 exInfo (by decide)⟩

/-! ## Claim C8 -/

/-- Claim C8: for every rendered menu, exactly one audio-only action is
appended whenever at least one audio-capable candidate exists, and exactly
one cancel action is always appended. -/
theorem C8_one_audio_one_cancel (vd : VideoData) :
    (vd.audio_formats ≠ [] → (keyboard vd).countP isAudioButton = 1) ∧
    (keyboard vd).countP isCancelButton = 1 := by
  have hva : (videoButtons vd).countP isAudioButton = 0 :=
    countP_map_videoButton vd.url (vd.video_formats.take 5) isAudioButton (fun _ => rfl)
  have hvc : (videoButtons vd).countP isCancelButton = 0 :=
    countP_map_videoButton vd.url (vd.video_formats.take 5) isCancelButton (fun _ => rfl)
  constructor
  · intro hne
    cases ha : vd.audio_formats with
    | nil => exact absurd ha hne
    | cons a rest =>
      simp [keyboard, List.countP_append, hva, audioButtons, ha,
            List.countP_cons, isAudioButton, cancelButton]
  · cases ha : vd.audio_formats with
    | nil =>
      simp [keyboard, List.countP_append, hvc, audioButtons, ha,
            List.countP_cons, isCancelButton, cancelButton]
    | cons a rest =>
      simp [keyboard, List.countP_append, hvc, audioButtons, ha,
            List.countP_cons, isCancelButton, cancelButton]

/-- Claim C8, witness: the example menu, whose audio candidate list is
nonempty, carries exactly one audio button and exactly one cancel button. -/
theorem C8_witness :
    exVD.audio_formats ≠ [] ∧
    (keyboard exVD).countP isAudioButton = 1 ∧
    (keyboard exVD).countP isCancelButton = 1 :=
  ⟨by decide, (C8_one_audio_one_cancel exVD).1 (by decide),
   (C8_one_audio_one_cancel exVD).2⟩

/-! ## Claim C9 -/

/-- Claim C9: for every normalized format list, the rendered menu contains at
most five video-quality buttons, and they are exactly the first entries of
the candidate video formats sorted by vertical resolution descending. -/
theorem C9_video_rows (url : String) (now : Nat) (info : RawInfo) :
    (videoButtons (get_video_info url now info)).length ≤ 5 ∧
    (videoButtons (get_video_info url now info)).map Button.callback_data
      = ((get_video_info url now info).video_formats.take 5).map
          (fun f => CallbackData.video url f.format_id f.ext) ∧
    (get_video_info url now info).video_formats.Pairwise
      (fun a b => b.height ≤ a.height) := by
  refine ⟨?_, ?_, ?_⟩
  · simp only [videoButtons, List.length_map, List.length_take]
    omega
  · simp only [videoButtons, List.map_map]
    rfl
  · rw [video_formats_def]
    exact pairwise_sortByKeyDesc _ _

/-! ## Claim C10 -/

/-- Claim C10: a raw descriptor whose reported filesize is absent, zero, or
above the configured ceiling is excluded at normalization time — every
candidate video and audio format carries a known, positive size that is at
most `MAX_FILE_SIZE`, so a format with unknown or oversize size is never
offered on the menu. -/
theorem C10_size_gate (url : String) (now : Nat) (info : RawInfo) :
    (∀ v ∈ (get_video_info url now info).video_formats,
       0 < v.filesize ∧ v.filesize ≤ MAX_FILE_SIZE) ∧
    (∀ a ∈ (get_video_info url now info).audio_formats,
       0 < a.filesize ∧ a.filesize ≤ MAX_FILE_SIZE) := by
  constructor
  · intro v hv
    rcases mem_video_formats hv with ⟨f, _, hcond, rfl⟩
    rw [Bool.and_eq_true] at hcond
    have h2 : filesizeOk f.filesize = true := hcond.2
    cases hfs : f.filesize with
    | none => rw [hfs] at h2; simp [filesizeOk] at h2
    | some n =>
      rw [hfs] at h2
      simp only [filesizeOk, Bool.and_eq_true] at h2
      refine ⟨?_, ?_⟩
      · simpa [toVideoFormat, hfs] using of_decide_eq_true h2.1
      · simpa [toVideoFormat, hfs] using of_decide_eq_true h2.2
  · intro a hv
    rcases mem_audio_formats hv with ⟨f, _, hcond, rfl⟩
    rw [Bool.and_eq_true] at hcond
    have h2 : filesizeOk f.filesize = true := hcond.2
    cases hfs : f.filesize with
    | none => rw [hfs] at h2; simp [filesizeOk] at h2
    | some n =>
      rw [hfs] at h2
      simp only [filesizeOk, Bool.and_eq_true] at h2
      refine ⟨?_, ?_⟩
      · simpa [toAudioFormat, hfs] using of_decide_eq_true h2.1
      · simpa [toAudioFormat, hfs] using of_decide_eq_true h2.2

/-- Claim C10, witness: the example's 720p format, whose reported size is
positive and below the ceiling, appears in the candidate list and indeed
carries a positive in-ceiling size. -/
theorem C10_witness :
    toVideoFormat exRawVideo ∈ exVD.video_formats ∧
    (0 < (toVideoFormat exRawVideo).filesize ∧
     (toVideoFormat exRawVideo).filesize ≤ MAX_FILE_SIZE) :=
  ⟨by decide,
   (C10_size_gate "https://youtube.com/watch?v=a" 0 exInfo).1
     (toVideoFormat exRawVideo) (by decide)⟩

end Bot

namespace Bot

/-! ## Claim C1 -/

/-- Claim C1, counterexample: a dispatched download job whose external
download call raises (so `download_media` returns `None`) schedules no
cleanup at all — no deferred deletion and no immediate removal — refuting
that one cleanup is scheduled exactly once regardless of outcome. -/
theorem C1_counterexample :
    ((handle_callback_query [] (CallbackData.video "https://youtube.com/watch?v=a" "22" "mp4")
        none true).1).downloadCalls = 1 ∧
    ((handle_callback_query [] (CallbackData.video "https://youtube.com/watch?v=a" "22" "mp4")
        none true).1).scheduledDeletions = [] ∧
    ((handle_callback_query [] (CallbackData.video "https://youtube.com/watch?v=a" "22" "mp4")
        none true).1).immediateRemovals = [] :=
  ⟨rfl, rfl, rfl⟩

/-- Claim C1, amended: a deferred deletion of the downloaded file (not of a
working directory) is scheduled, after `FILE_DELETE_DELAY`, only when the
artifact was delivered successfully; when sending fails the file is removed
immediately with no scheduled cleanup, and when the download itself fails
nothing is scheduled or removed. -/
theorem C1_amended_cleanup_per_branch (isVideo : Bool) (url fid ext : String)
    (cache : List (Nat × VideoData)) (dl : Option Artifact) (sendOk : Bool) :
    ((handle_callback_query cache (mkDownloadAction isVideo url fid ext) dl sendOk).1).scheduledDeletions
      = (match dl, sendOk with
         | some art, true => [(FILE_DELETE_DELAY, art.path)]
         | _, _ => []) ∧
    ((handle_callback_query cache (mkDownloadAction isVideo url fid ext) dl sendOk).1).immediateRemovals
      = (match dl, sendOk with
         | some art, false => [art.path]
         | _, _ => []) := by
  cases isVideo <;> cases dl <;> cases sendOk <;>
    simp [handle_callback_query, mkDownloadAction, dispatchDownload]

/-! ## Claim C2 -/

/-- Claim C2, counterexample: a second button press carrying the same
callback payload as an earlier press is processed exactly like the first —
it dispatches a fresh download (one `download_media` call) and its message
edits are the ordinary download edits, with no already-processing
rejection — refuting that a repeated press is detected and rejected. -/
theorem C2_counterexample :
    (((handle_two_presses [] (CallbackData.video "https://youtube.com/watch?v=a" "22" "mp4")
        (some { path := "temp_downloads/v.mp4", size := 1000000 })
        (some { path := "temp_downloads/v.mp4", size := 1000000 }) true true).1).2).downloadCalls = 1 ∧
    (((handle_two_presses [] (CallbackData.video "https://youtube.com/watch?v=a" "22" "mp4")
        (some { path := "temp_downloads/v.mp4", size := 1000000 })
        (some { path := "temp_downloads/v.mp4", size := 1000000 }) true true).1).2).edits
      = ["⏳ Preparing your download...", "✅ Download completed!"] :=
  ⟨rfl, rfl⟩

/-- Claim C2, amended: the callback handler keeps no per-token state, so a
second press with the same payload behaves exactly like a first press
against the same state and always dispatches its own download job; no
rejection path exists. -/
theorem C2_amended_stateless_represses (cache : List (Nat × VideoData)) (isVideo : Bool)
    (url fid ext : String) (dl1 dl2 : Option Artifact) (s1 s2 : Bool) :
    (((handle_two_presses cache (mkDownloadAction isVideo url fid ext) dl1 dl2 s1 s2).1).2)
      = (handle_callback_query cache (mkDownloadAction isVideo url fid ext) dl2 s2).1 ∧
    (((handle_two_presses cache (mkDownloadAction isVideo url fid ext) dl1 dl2 s1 s2).1).2).downloadCalls
      = 1 := by
  cases isVideo <;> cases dl2 <;> cases s2 <;>
    simp [handle_two_presses, handle_callback_query, mkDownloadAction, dispatchDownload]

/-! ## Claim C3 -/

/-- Claim C3, counterexample: a completed download whose artifact is one byte
over `MAX_FILE_SIZE` is nevertheless delivered — the dispatcher invokes the
send-media call and reports success — refuting that oversize artifacts are
withheld, reported with their measured size, and followed by a scheduled
cleanup. -/
theorem C3_counterexample :
    ((handle_callback_query [] (CallbackData.video "https://youtube.com/watch?v=a" "22" "mp4")
        (some { path := "temp_downloads/big.mp4", size := MAX_FILE_SIZE + 1 }) true).1).sendVideoCalls
      = ["temp_downloads/big.mp4"] ∧
    ((handle_callback_query [] (CallbackData.video "https://youtube.com/watch?v=a" "22" "mp4")
        (some { path := "temp_downloads/big.mp4", size := MAX_FILE_SIZE + 1 }) true).1).edits
      = ["⏳ Preparing your download...", "✅ Download completed!"] ∧
    MAX_FILE_SIZE < MAX_FILE_SIZE + 1 :=
  ⟨rfl, rfl, Nat.lt_succ_self _⟩

/-- Claim C3, amended: the dispatcher never measures the artifact after a
completed download — its behaviour is independent of the artifact's size and
the send-media call is attempted for every produced artifact; the ceiling
`MAX_FILE_SIZE` is applied only when filtering formats at menu-build time. -/
theorem C3_amended_no_size_check (cache : List (Nat × VideoData)) (isVideo : Bool)
    (url fid ext p : String) (n m : Nat) (sendOk : Bool) :
    handle_callback_query cache (mkDownloadAction isVideo url fid ext)
        (some { path := p, size := n }) sendOk
      = handle_callback_query cache (mkDownloadAction isVideo url fid ext)
          (some { path := p, size := m }) sendOk ∧
    ((handle_callback_query cache (mkDownloadAction true url fid ext)
        (some { path := p, size := n }) sendOk).1).sendVideoCalls = [p] := by
  cases isVideo <;> cases sendOk <;>
    simp [handle_callback_query, mkDownloadAction, dispatchDownload]

/-! ## Claim C4 -/

/-- Claim C4, counterexample: two distinct live pending requests — the same
URL previewed in chat 1 and in chat 2 — carry exactly the same action
payloads on their buttons, refuting that every menu-build stores a token
unique among currently-live pending requests. -/
theorem C4_counterexample :
    (send_preview 1 exVD).buttons.map Button.callback_data
      = (send_preview 2 exVD).buttons.map Button.callback_data ∧
    (1 : Nat) ≠ 2 ∧
    (send_preview 1 exVD).buttons ≠ [] :=
  ⟨rfl, by decide, by decide⟩

/-- Claim C4, amended: no unique token is generated at menu-build time — a
button's action payload is a pure function of the URL and the extracted
format metadata, independent of the originating chat and of the creation
time, so any two live requests for the same URL share identical payloads. -/
theorem C4_amended_tokens_not_unique (chat1 chat2 : Nat) (url : String)
    (now1 now2 : Nat) (info : RawInfo) :
    (send_preview chat1 (get_video_info url now1 info)).buttons.map Button.callback_data
      = (send_preview chat2 (get_video_info url now2 info)).buttons.map Button.callback_data := rfl

/-! ## Claim C5 -/

/-- Claim C5, counterexample: a cancel press leaves the module-level cache —
the only stored state — exactly as it was (the entry for the request's URL
is still present), refuting that the pending request is removed from a
store; the message is merely edited to the cancelled text. -/
theorem C5_counterexample :
    (handle_callback_query [(42, exVD)] CallbackData.cancel none true).2 = [(42, exVD)] ∧
    ((handle_callback_query [(42, exVD)] CallbackData.cancel none true).1).edits
      = ["❌ Download cancelled."] :=
  ⟨rfl, rfl⟩

/-- Claim C5, amended: a cancel press edits the message to a terminal
cancelled state, invokes no download (hence creates no working directory),
sends nothing, schedules no cleanup, and removes nothing — there is no
pending-request store, and the URL cache is left untouched. -/
theorem C5_amended_cancel (cache : List (Nat × VideoData)) (dl : Option Artifact)
    (sendOk : Bool) :
    handle_callback_query cache CallbackData.cancel dl sendOk
      = ({ edits := ["❌ Download cancelled."], downloadCalls := 0,
           sendVideoCalls := [], sendAudioCalls := [],
           scheduledDeletions := [], immediateRemovals := [] }, cache) := rfl

/-! ## Claim C6 -/

/-- Claim C6: for every inbound text message whose URL is not on the
allow-list of supported source domains, the orchestrator replies with the
unsupported-source rejection, never invokes the extraction capability
(zero extraction calls), sends no menu, and leaves the cache unchanged. -/
theorem C6_unsupported_url_rejected (hashUrl : String → Nat) (now : Nat)
    (cache : List (Nat × VideoData)) (url : String) (engine : Option RawInfo)
    (h : is_supported_url url = false) :
    (handle_url hashUrl now cache url engine).1.extractionCalls = 0 ∧
    (handle_url hashUrl now cache url engine).1.replies = [unsupportedReply] ∧
    (handle_url hashUrl now cache url engine).1.menu = none ∧
    (handle_url hashUrl now cache url engine).2 = cache := by
  simp [handle_url, h]

/-- Claim C6, witness: a concrete URL from an unsupported domain is rejected
with zero extraction calls. -/
theorem C6_witness :
    is_supported_url "http://example.org/v" = false ∧
    (handle_url (fun _ => 0) 0 [] "http://example.org/v" none).1.extractionCalls = 0 ∧
    (handle_url (fun _ => 0) 0 [] "http://example.org/v" none).1.replies = [unsupportedReply] := by
  refine ⟨by decide, ?_, ?_⟩
  · exact (C6_unsupported_url_rejected (fun _ => 0) 0 [] "http://example.org/v" none (by decide)).1
  · exact (C6_unsupported_url_rejected (fun _ => 0) 0 [] "http://example.org/v" none (by decide)).2.1

end Bot
